import Mathlib

/-!
Shallow embedding of the tracker-agent core: the multi-agent orchestrator
loop from src/app/services/agents.py and the result extraction step from
src/app/services/llm.py.  Python exceptions are modelled by the `PyError`
type and fallible code returns `Except PyError _`; the Anthropic client is
an explicit function parameter (a model double), and the guidelines file
is an `Option String` (none when the file is absent).
-/

namespace TrackerAgent

/-- Python exception classes that can surface from the embedded code. -/
inductive PyError where
  | APIError
  | IndexError
  | AttributeError
  | TypeError
  | JSONDecodeError
  | KeyError (key : String)
  | RuntimeError (msg : String)
deriving DecidableEq, Repr

/-- A content block of an Anthropic message: either a text block or a
tool-use block carrying a call id, a tool name and an input payload
(the tool input schemas of this program declare only string fields, so
the payload is an association list of string fields). -/
inductive Block where
  | text (s : String)
  | tool_use (id : String) (name : String) (input : List (String × String))
deriving DecidableEq, Repr

/-- A model response: `stop_reason` plus content blocks. -/
structure ModelResponse where
  stop_reason : String
  content : List Block
deriving DecidableEq, Repr

/-- A tool_result entry as built in run_orchestrator (the constant
"type": "tool_result" tag is omitted). -/
structure ToolResult where
  tool_use_id : String
  content : String
deriving DecidableEq, Repr

/-- The content of a conversation message: the seed user string, an
assistant turn's blocks, or a batch of tool results. -/
inductive MessageContent where
  | text (s : String)
  | blocks (bs : List Block)
  | toolResults (rs : List ToolResult)
deriving DecidableEq, Repr

/-- One conversation message. -/
structure Message where
  role : String
  content : MessageContent
deriving DecidableEq, Repr

/-- A declared tool input schema: property names with their descriptions,
and the list of required field names. -/
structure InputSchema where
  properties : List (String × String)
  required : List String
deriving DecidableEq, Repr

/-- A tool declaration advertised to the model. -/
structure ToolSpec where
  name : String
  description : String
  input_schema : InputSchema
deriving DecidableEq, Repr

/-- One client.messages.create request: the sub-agents pass no tools
(`tools = none`), the orchestrator passes TOOLS. -/
structure Request where
  model : String
  max_tokens : Nat
  temperature : Rat
  system : String
  messages : List Message
  tools : Option (List ToolSpec)

/-- The Anthropic client, abstracted: a map from requests to either an
exception or a model response. -/
abbrev ClientFn : Type := Request → Except PyError ModelResponse

deriving instance DecidableEq for Except

/- ── Structural models of the Python str methods used by the code ────── -/

/-- A Python whitespace character (the ASCII set stripped by str.strip). -/
def isPySpace (c : Char) : Bool :=
  c = ' ' || c = '\t' || c = '\n' || c = '\x0d' || c = '\x0b' || c = '\x0c'

/-- Python str.strip(): drop whitespace from both ends. -/
def pyStrip (s : String) : String :=
  String.mk (((s.data.dropWhile isPySpace).reverse.dropWhile isPySpace).reverse)

/-- Whether the first list is an initial segment of the second. -/
def startsAux : List Char → List Char → Bool
  | [], _ => true
  | _ :: _, [] => false
  | p :: ps, c :: cs => (p = c) && startsAux ps cs

/-- Python s.startswith(pre). -/
def pyStartsWith (s pre : String) : Bool := startsAux pre.data s.data

/-- Python s.endswith(suf). -/
def pyEndsWith (s suf : String) : Bool :=
  startsAux suf.data.reverse s.data.reverse

/-- Python s[:-n]: drop the last n characters. -/
def pyDropRight (s : String) (n : Nat) : String :=
  String.mk (s.data.take (s.data.length - n))

/- ── src/app/services/llm.py, generate_jira_updates lines 71-86 ────────
   The terminal payload handling: code-fence stripping, JSON parsing and
   metadata attachment.  json.loads is abstracted as a parse function
   returning `none` exactly when it would raise json.JSONDecodeError. -/

/-- A JSON value, as returned by json.loads. -/
inductive Json where
  | null
  | bool (b : Bool)
  | num (n : Int)
  | str (s : String)
  | arr (elems : List Json)
  | obj (fields : List (String × Json))

/-- Python dict assignment on the field list: replace the value of an
existing key in place, else append the new key at the end. -/
def Json.assign : List (String × Json) → String → Json → List (String × Json)
  | [], k, v => [(k, v)]
  | (k₀, v₀) :: rest, k, v =>
    if k₀ = k then (k₀, v) :: rest else (k₀, v₀) :: Json.assign rest k v

/-- Python item assignment result[k] = v: succeeds on a dict, raises
TypeError on any other value. -/
def Json.setItem : Json → String → Json → Except PyError Json
  | .obj kvs, k, v => .ok (.obj (Json.assign kvs k v))
  | _, _, _ => .error .TypeError

/-- Whether a JSON value is an object (a Python dict). -/
def Json.isObj : Json → Bool
  | .obj _ => true
  | _ => false

/-- Everything after the first newline of a character list, or `none`
when the list holds no newline. -/
def afterNewline : List Char → Option (List Char)
  | [] => none
  | c :: cs => if c = '\n' then some cs else afterNewline cs

/-- Python content.split("\n", 1)[1]: everything after the first newline,
or an IndexError when the string holds no newline (the 1-element split
has no index 1). -/
def splitAfterNewline (s : String) : Except PyError String :=
  match afterNewline s.data with
  | none => .error .IndexError
  | some cs => .ok (String.mk cs)

/-- Lines 74-78 of llm.py: if the payload starts with a code fence,
drop the first line, drop a trailing fence when present, and strip. -/
def stripCodeFence (content : String) : Except PyError String :=
  if pyStartsWith content "```" then
    match splitAfterNewline content with
    | .error e => .error e
    | .ok rest =>
      let rest := if pyEndsWith rest "```" then pyDropRight rest 3 else rest
      .ok (pyStrip rest)
  else .ok content

/-- track_context.get(k, ""): dictionary lookup with default "". -/
def tcGet (track_context : List (String × String)) (k : String) : String :=
  (track_context.lookup k).getD ""

/-- Lines 71-86 of generate_jira_updates: strip the raw terminal text,
strip optional code fences, parse as JSON (`parse` models json.loads;
`none` models a raised json.JSONDecodeError), then attach the
workstream and track metadata from the track context. -/
def extractJiraResult (parse : String → Option Json)
    (track_context : List (String × String)) (raw : String) :
    Except PyError Json :=
  let content := pyStrip raw
  match stripCodeFence content with
  | .error e => .error e
  | .ok content =>
    match parse content with
    | none => .error .JSONDecodeError
    | some result =>
      match result.setItem "workstream" (.str (tcGet track_context "workstream")) with
      | .error e => .error e
      | .ok r₁ =>
        match r₁.setItem "track" (.str (tcGet track_context "track")) with
        | .error e => .error e
        | .ok r₂ => .ok r₂

/- ── src/app/services/agents.py ──────────────────────────────────────── -/

/-- The TOOLS list (agents.py lines 23-79): the three tool declarations
advertised to the orchestrator model. -/
def TOOLS : List ToolSpec :=
  [ { name := "extract_facts"
      description :=
        "Extract raw factual observations from the notes document and map them to the relevant milestones. Call this first."
      input_schema :=
        { properties :=
            [ ("milestones_json", "JSON string of milestones to extract facts for."),
              ("notes_text", "Full text of the notes document.") ]
          required := ["milestones_json", "notes_text"] } },
    { name := "summarize_facts"
      description :=
        "Take extracted facts and rewrite them into polished summaries following the project\x27s summarization guidelines. Call this after extract_facts."
      input_schema :=
        { properties :=
            [ ("extracted_facts_json", "JSON string of extracted facts from extract_facts.") ]
          required := ["extracted_facts_json"] } },
    { name := "format_updates"
      description :=
        "Take summarized content and format it into the final structured JSON for Jira posting. Call this after summarize_facts."
      input_schema :=
        { properties :=
            [ ("summarized_json", "JSON string of summarized updates from summarize_facts.") ]
          required := ["summarized_json"] } } ]

/-- Python response.content[0].text for a sub-agent response: IndexError
on an empty content list, AttributeError when the first block is not a
text block. -/
def firstBlockText (response : ModelResponse) : Except PyError String :=
  match response.content with
  | [] => .error .IndexError
  | .text s :: _ => .ok s
  | .tool_use _ _ _ :: _ => .error .AttributeError

/-- The request built by _run_extract_facts (agents.py lines 86-109). -/
def extractRequest (milestones_json notes_text : String) : Request :=
  { model := "claude-sonnet-4-5-20250929"
    max_tokens := 4096
    temperature := 0.1
    system :=
      "You are a fact-extraction agent. Your only job is to read the notes document and pull out every concrete, factual observation that relates to the given milestones. Do not summarize or paraphrase — just extract raw facts. Return valid JSON."
    messages :=
      [ { role := "user"
          content := .text
            ("MILESTONES:\n" ++ milestones_json ++ "\n\n" ++
             "NOTES DOCUMENT:\n" ++ notes_text ++ "\n\n" ++
             "For each milestone, extract raw facts from the notes. " ++
             "If the notes do not mention a milestone, note that explicitly.\n\n" ++
             "Return JSON:\n" ++
             "\x7b\"facts\": [\x7b\"jira_id\": \"...\", \"milestone\": \"...\", \"raw_facts\": [\"fact1\", \"fact2\"]\x7d, ...]\x7d") } ]
    tools := none }

/-- Sub-agent 1: fact extraction (agents.py lines 84-110). -/
def _run_extract_facts (client : ClientFn) (milestones_json notes_text : String) :
    Except PyError String :=
  match client (extractRequest milestones_json notes_text) with
  | .error e => .error e
  | .ok response => firstBlockText response

/-- The default guidelines policy string (agents.py line 117). -/
def defaultGuidelines : String :=
  "No custom guidelines found. Use professional, concise language."

/-- _load_guidelines (agents.py lines 113-117): the guidelines file is
modelled as `Option String` (`none` when GUIDELINES_PATH does not
exist, `some text` when it exists with that content). -/
def _load_guidelines (guidelinesFile : Option String) : String :=
  match guidelinesFile with
  | some text => text
  | none => defaultGuidelines

/-- The request built by _run_summarize_facts (agents.py lines 124-150),
given the already-loaded guidelines text. -/
def summarizeRequest (guidelines extracted_facts_json : String) : Request :=
  { model := "claude-sonnet-4-5-20250929"
    max_tokens := 4096
    temperature := 0.2
    system :=
      "You are a summarization agent. Rewrite raw extracted facts into " ++
      "polished, executive-ready summaries. Follow the guidelines strictly.\n\n" ++
      "SUMMARIZATION GUIDELINES:\n" ++ guidelines
    messages :=
      [ { role := "user"
          content := .text
            ("EXTRACTED FACTS:\n" ++ extracted_facts_json ++ "\n\n" ++
             "For each milestone, produce:\n" ++
             "- progress_summary: 2-4 bullet points\n" ++
             "- recent_changes: 2-4 bullet points\n" ++
             "- next_steps: 2-4 bullet points\n" ++
             "- leadership_summary: one executive sentence\n\n" ++
             "Return valid JSON:\n" ++
             "\x7b\"summaries\": [\x7b\"jira_id\": \"...\", \"milestone\": \"...\", \"progress_summary\": [...], \"recent_changes\": [...], \"next_steps\": [...], \"leadership_summary\": \"...\"\x7d, ...]\x7d") } ]
    tools := none }

/-- Sub-agent 2: summarization with guidelines (agents.py lines 120-151). -/
def _run_summarize_facts (client : ClientFn) (guidelinesFile : Option String)
    (extracted_facts_json : String) : Except PyError String :=
  let guidelines := _load_guidelines guidelinesFile
  match client (summarizeRequest guidelines extracted_facts_json) with
  | .error e => .error e
  | .ok response => firstBlockText response

/-- The request built by _run_format_updates (agents.py lines 156-177). -/
def formatRequest (summarized_json : String) : Request :=
  { model := "claude-sonnet-4-5-20250929"
    max_tokens := 4096
    temperature := 0.0
    system :=
      "You are a formatting agent. Take the summarized updates and return " ++
      "them in the exact JSON schema required. Do not change the content — " ++
      "only ensure the structure is correct. Return ONLY valid JSON, no markdown."
    messages :=
      [ { role := "user"
          content := .text
            ("SUMMARIZED UPDATES:\n" ++ summarized_json ++ "\n\n" ++
             "Return ONLY valid JSON in this exact format:\n" ++
             "\x7b\"updates\": [\x7b\"jira_id\": \"...\", \"milestone\": \"...\", \"progress_summary\": [\"...\"], \"recent_changes\": [\"...\"], \"next_steps\": [\"...\"], \"leadership_summary\": \"...\"\x7d]\x7d") } ]
    tools := none }

/-- Sub-agent 3: final formatting (agents.py lines 154-178). -/
def _run_format_updates (client : ClientFn) (summarized_json : String) :
    Except PyError String :=
  match client (formatRequest summarized_json) with
  | .error e => .error e
  | .ok response => firstBlockText response

/-- Python inputs[k] on the tool input payload: KeyError when absent. -/
def dictGet (inputs : List (String × String)) (k : String) :
    Except PyError String :=
  match inputs.lookup k with
  | some v => .ok v
  | none => .error (.KeyError k)

/-- The dispatch table _TOOL_HANDLERS (agents.py lines 182-192): a map
from tool name to handler; each handler subscripts its required fields
out of the input payload (raising KeyError when one is missing) and
invokes the corresponding sub-agent. -/
def _TOOL_HANDLERS (client : ClientFn) (guidelinesFile : Option String)
    (name : String) :
    Option (List (String × String) → Except PyError String) :=
  if name = "extract_facts" then
    some (fun inputs =>
      match dictGet inputs "milestones_json" with
      | .error e => .error e
      | .ok m =>
        match dictGet inputs "notes_text" with
        | .error e => .error e
        | .ok t => _run_extract_facts client m t)
  else if name = "summarize_facts" then
    some (fun inputs =>
      match dictGet inputs "extracted_facts_json" with
      | .error e => .error e
      | .ok f => _run_summarize_facts client guidelinesFile f)
  else if name = "format_updates" then
    some (fun inputs =>
      match dictGet inputs "summarized_json" with
      | .error e => .error e
      | .ok s => _run_format_updates client s)
  else none

/-- json.dumps of the unknown-tool error payload (agents.py line 250). -/
def unknownToolPayload (name : String) : String :=
  "\x7b\"error\": \"Unknown tool: " ++ name ++ "\"\x7d"

/-- The tool-processing loop over an assistant turn's content blocks
(agents.py lines 243-258): for each tool_use block, dispatch through
_TOOL_HANDLERS (an unregistered name yields the error payload instead
of a handler call) and collect the tool results in order; a handler
exception aborts the whole run. -/
def processBlocks (client : ClientFn) (guidelinesFile : Option String) :
    List Block → Except PyError (List ToolResult)
  | [] => .ok []
  | .text _ :: rest => processBlocks client guidelinesFile rest
  | .tool_use id name input :: rest =>
    match
      (match _TOOL_HANDLERS client guidelinesFile name with
       | some handler => handler input
       | none => .ok (unknownToolPayload name)) with
    | .error e => .error e
    | .ok result =>
      match processBlocks client guidelinesFile rest with
      | .error e => .error e
      | .ok results => .ok ({ tool_use_id := id, content := result } :: results)

/-- Lines 265-270: concatenate the text of every block that has a text
attribute, then strip. -/
def finalText (blocks : List Block) : String :=
  pyStrip (blocks.foldl
    (fun acc b => match b with | .text s => acc ++ s | .tool_use _ _ _ => acc)
    "")

/-- The seed user message of run_orchestrator (agents.py lines 202-216). -/
def seedMessage (milestones_json notes_text : String) : Message :=
  { role := "user"
    content := .text
      ("Generate Jira updates for the following milestones using the notes document.\n\n" ++
       "MILESTONES:\n" ++ milestones_json ++ "\n\n" ++
       "NOTES DOCUMENT:\n" ++ notes_text ++ "\n\n" ++
       "Steps:\n" ++
       "1. Call extract_facts to pull raw facts from the notes\n" ++
       "2. Call summarize_facts to produce polished summaries\n" ++
       "3. Call format_updates to produce the final JSON\n" ++
       "4. Return the final JSON result as your response") }

/-- The orchestrator-model request of one loop iteration (lines 221-233). -/
def orchRequest (messages : List Message) : Request :=
  { model := "claude-sonnet-4-5-20250929"
    max_tokens := 4096
    temperature := 0.0
    system :=
      "You are an orchestrator agent. You coordinate three specialist tools " ++
      "to generate Jira milestone updates. Call them in order: " ++
      "extract_facts → summarize_facts → format_updates. " ++
      "After format_updates returns, output the final JSON as your response."
    messages := messages
    tools := some TOOLS }

/-- The non-convergence failure raised by the for-else (line 262). -/
def nonConvergenceError : PyError :=
  .RuntimeError "Orchestrator did not converge within max iterations"

/-- The agentic loop of run_orchestrator (lines 220-262), with the
remaining iteration budget as fuel: exhausted fuel is the for-else
RuntimeError; otherwise one orchestrator model call is made, an
end_turn reply terminates with the stripped final text, and any other
reply has its tool calls processed and appended before looping. -/
def orchLoop (client : ClientFn) (guidelinesFile : Option String) :
    Nat → List Message → Except PyError String
  | 0, _ => .error nonConvergenceError
  | n + 1, messages =>
    match client (orchRequest messages) with
    | .error e => .error e
    | .ok response =>
      if response.stop_reason = "end_turn" then
        .ok (finalText response.content)
      else
        match processBlocks client guidelinesFile response.content with
        | .error e => .error e
        | .ok tool_results =>
          orchLoop client guidelinesFile n
            (messages ++
              [{ role := "assistant", content := .blocks response.content },
               { role := "user", content := .toolResults tool_results }])

/-- max_iterations (agents.py line 219). -/
def max_iterations : Nat := 10

/-- run_orchestrator (agents.py lines 197-270). -/
def run_orchestrator (client : ClientFn) (guidelinesFile : Option String)
    (milestones_json notes_text : String) : Except PyError String :=
  orchLoop client guidelinesFile max_iterations
    [seedMessage milestones_json notes_text]

/-- The number of orchestrator model calls orchLoop performs: it mirrors
orchLoop case for case, counting one call per executed iteration (the
model calls made inside tool handlers are sub-agent calls, not
orchestrator calls, and are not counted). -/
def orchCalls (client : ClientFn) (guidelinesFile : Option String) :
    Nat → List Message → Nat
  | 0, _ => 0
  | n + 1, messages =>
    match client (orchRequest messages) with
    | .error _ => 1
    | .ok response =>
      if response.stop_reason = "end_turn" then 1
      else
        match processBlocks client guidelinesFile response.content with
        | .error _ => 1
        | .ok tool_results =>
          1 + orchCalls client guidelinesFile n
            (messages ++
              [{ role := "assistant", content := .blocks response.content },
               { role := "user", content := .toolResults tool_results }])

/-- The orchestrator model calls of a whole run_orchestrator run. -/
def runOrchCalls (client : ClientFn) (guidelinesFile : Option String)
    (milestones_json notes_text : String) : Nat :=
  orchCalls client guidelinesFile max_iterations
    [seedMessage milestones_json notes_text]

/- ── Auxiliary definitions and lemmas ───────────────────────────────── -/

/-- A model double that never signals a terminal answer: on every
conversation the orchestrator-model call succeeds with a reply that is
not end_turn and whose tool calls all process without an exception. -/
def AlwaysToolCalling (client : ClientFn) (guidelinesFile : Option String) : Prop :=
  ∀ msgs : List Message, ∃ response results,
    client (orchRequest msgs) = .ok response ∧
    response.stop_reason ≠ "end_turn" ∧
    processBlocks client guidelinesFile response.content = .ok results

/-- The call id of each tool-use block of an assistant turn, in order. -/
def toolUseIds (blocks : List Block) : List String :=
  blocks.filterMap (fun b => match b with
    | .tool_use i _ _ => some i
    | .text _ => none)

/- ── Concrete model doubles used to instantiate the theorems ────────── -/

/-- A double that always requests a tool that is not registered. -/
def doubleUnknownTool : ClientFn := fun _ =>
  .ok { stop_reason := "tool_use",
        content := [Block.tool_use "toolu_1" "bogus_tool" []] }

/-- A double whose orchestrator reply requests extract_facts without the
required notes_text field; sub-agent requests get a plain text reply. -/
def doubleMissingField : ClientFn := fun req =>
  if req.tools.isSome then
    .ok { stop_reason := "tool_use",
          content := [Block.tool_use "toolu_2" "extract_facts"
            [("milestones_json", "[]")]] }
  else .ok { stop_reason := "end_turn", content := [Block.text "sub"] }

/-- A double whose every call fails with an API error. -/
def doubleAPIError : ClientFn := fun _ => .error .APIError

/-- A double whose every call succeeds with an empty content list. -/
def doubleEmptyContent : ClientFn := fun _ =>
  .ok { stop_reason := "end_turn", content := [] }

/-- A double whose orchestrator reply immediately requests format_updates
(no prior extract_facts or summarize_facts call anywhere in the
conversation); sub-agent requests get the fixed text "OUT". -/
def doubleFormatCall : ClientFn := fun req =>
  if req.tools.isSome then
    .ok { stop_reason := "tool_use",
          content := [Block.tool_use "toolu_9" "format_updates"
            [("summarized_json", "S")]] }
  else .ok { stop_reason := "end_turn", content := [Block.text "OUT"] }

/-- A json.loads double that always fails to parse. -/
def parseNone : String → Option Json := fun _ => none

/-- A json.loads double that always returns the empty JSON object. -/
def parseEmptyObj : String → Option Json := fun _ => some (.obj [])

/-- A json.loads double that always returns the empty JSON array: parsing
succeeds, but the parsed value is not an object. -/
def parseEmptyArr : String → Option Json := fun _ => some (.arr [])

theorem orchLoop_succ (client : ClientFn) (gf : Option String) (n : Nat)
    (msgs : List Message) (response : ModelResponse) (results : List ToolResult)
    (hc : client (orchRequest msgs) = .ok response)
    (hs : response.stop_reason ≠ "end_turn")
    (hp : processBlocks client gf response.content = .ok results) :
    orchLoop client gf (n + 1) msgs =
      orchLoop client gf n
        (msgs ++ [{ role := "assistant", content := .blocks response.content },
                  { role := "user", content := .toolResults results }]) := by
  rw [orchLoop, hc]
  simp only [hs, if_false, hp]

theorem orchCalls_succ (client : ClientFn) (gf : Option String) (n : Nat)
    (msgs : List Message) (response : ModelResponse) (results : List ToolResult)
    (hc : client (orchRequest msgs) = .ok response)
    (hs : response.stop_reason ≠ "end_turn")
    (hp : processBlocks client gf response.content = .ok results) :
    orchCalls client gf (n + 1) msgs =
      1 + orchCalls client gf n
        (msgs ++ [{ role := "assistant", content := .blocks response.content },
                  { role := "user", content := .toolResults results }]) := by
  rw [orchCalls, hc]
  simp only [hs, if_false, hp]

theorem orchCalls_le (client : ClientFn) (gf : Option String) :
    ∀ (n : Nat) (msgs : List Message), orchCalls client gf n msgs ≤ n := by
  intro n
  induction n with
  | zero => intro msgs; simp [orchCalls]
  | succ k ih =>
    intro msgs
    rw [orchCalls]
    split
    · omega
    · split
      · omega
      · split
        · omega
        · rename_i xa response hca hsa xb results hpa
          have := ih (msgs ++
            [{ role := "assistant", content := .blocks response.content },
             { role := "user", content := .toolResults results }])
          omega

theorem orchLoop_nonconv (client : ClientFn) (gf : Option String)
    (h : AlwaysToolCalling client gf) :
    ∀ (n : Nat) (msgs : List Message),
      orchLoop client gf n msgs = .error nonConvergenceError ∧
      orchCalls client gf n msgs = n := by
  intro n
  induction n with
  | zero => intro msgs; exact ⟨rfl, rfl⟩
  | succ k ih =>
    intro msgs
    obtain ⟨response, results, hc, hs, hp⟩ := h msgs
    refine ⟨?_, ?_⟩
    · rw [orchLoop_succ client gf k msgs response results hc hs hp]
      exact (ih _).1
    · rw [orchCalls_succ client gf k msgs response results hc hs hp, (ih _).2]
      omega

theorem handlers_eq_none (client : ClientFn) (gf : Option String) (name : String)
    (h1 : name ≠ "extract_facts") (h2 : name ≠ "summarize_facts")
    (h3 : name ≠ "format_updates") :
    _TOOL_HANDLERS client gf name = none := by
  simp [_TOOL_HANDLERS, h1, h2, h3]

theorem processBlocks_unknown_cons (client : ClientFn) (gf : Option String)
    (id name : String) (input : List (String × String)) (rest : List Block)
    (results : List ToolResult)
    (hname : _TOOL_HANDLERS client gf name = none)
    (hrest : processBlocks client gf rest = .ok results) :
    processBlocks client gf (Block.tool_use id name input :: rest)
      = .ok ({ tool_use_id := id, content := unknownToolPayload name } :: results) := by
  rw [processBlocks, hname]
  simp only [hrest]

theorem processBlocks_ids (client : ClientFn) (gf : Option String) :
    ∀ (blocks : List Block) (results : List ToolResult),
      processBlocks client gf blocks = .ok results →
      results.map ToolResult.tool_use_id = toolUseIds blocks := by
  intro blocks
  induction blocks with
  | nil =>
    intro results h
    rw [processBlocks] at h
    cases h
    rfl
  | cons b rest ih =>
    cases b with
    | text s =>
      intro results h
      rw [processBlocks] at h
      simpa [toolUseIds] using ih results h
    | tool_use i name input =>
      intro results h
      rw [processBlocks] at h
      split at h
      · cases h
      · split at h
        · cases h
        · cases h
          rename_i result hres results' hrest
          simpa [toolUseIds] using ih results' hrest

/- ── Claims ─────────────────────────────────────────────────────────── -/

/-- Claim C1: for every model double, run_orchestrator makes at most 10
orchestrator model calls, and under a double that on every turn keeps
requesting tool calls (never an end_turn answer) the run deterministically
ends in the non-convergence RuntimeError after exactly 10 iterations — a
hard stop, not a retry. -/
theorem claim_C1_orchestrator_bound (client : ClientFn) (gf : Option String)
    (milestones_json notes_text : String) :
    runOrchCalls client gf milestones_json notes_text ≤ 10 ∧
    (AlwaysToolCalling client gf →
      run_orchestrator client gf milestones_json notes_text =
        .error nonConvergenceError ∧
      runOrchCalls client gf milestones_json notes_text = 10) := by
  refine ⟨orchCalls_le client gf max_iterations _, fun h => ?_⟩
  exact orchLoop_nonconv client gf h max_iterations
    [seedMessage milestones_json notes_text]

/-- Witness for C1: the fixed double that always requests an unregistered
tool never converges and uses exactly the 10-call budget. -/
theorem claim_C1_witness :
    run_orchestrator doubleUnknownTool none "[]" "notes" =
      .error nonConvergenceError ∧
    runOrchCalls doubleUnknownTool none "[]" "notes" = 10 := by
  refine (claim_C1_orchestrator_bound doubleUnknownTool none "[]" "notes").2 ?_
  intro msgs
  exact ⟨{ stop_reason := "tool_use",
           content := [Block.tool_use "toolu_1" "bogus_tool" []] },
         [{ tool_use_id := "toolu_1",
            content := "\x7b\"error\": \"Unknown tool: bogus_tool\"\x7d" }],
         rfl, by decide, by decide⟩

/-- Claim C2: a tool-call request with an unregistered tool name does not
crash the run: the orchestrator appends a ToolResult whose content is the
explicit error payload naming the unknown tool, tagged with that call's
id, and the loop then continues to the next iteration. -/
theorem claim_C2_unknown_tool :
    (∀ (client : ClientFn) (gf : Option String) (id name : String)
       (input : List (String × String)) (rest : List Block)
       (results : List ToolResult),
       name ≠ "extract_facts" → name ≠ "summarize_facts" →
       name ≠ "format_updates" →
       processBlocks client gf rest = .ok results →
       processBlocks client gf (Block.tool_use id name input :: rest) =
         .ok ({ tool_use_id := id, content := unknownToolPayload name } :: results)) ∧
    (∀ (client : ClientFn) (gf : Option String) (msgs : List Message) (n : Nat)
       (response : ModelResponse) (results : List ToolResult),
       client (orchRequest msgs) = .ok response →
       response.stop_reason ≠ "end_turn" →
       processBlocks client gf response.content = .ok results →
       orchLoop client gf (n + 1) msgs =
         orchLoop client gf n
           (msgs ++ [{ role := "assistant", content := .blocks response.content },
                     { role := "user", content := .toolResults results }])) := by
  constructor
  · intro client gf id name input rest results h1 h2 h3 hrest
    exact processBlocks_unknown_cons client gf id name input rest results
      (handlers_eq_none client gf name h1 h2 h3) hrest
  · intro client gf msgs n response results hc hs hp
    exact orchLoop_succ client gf n msgs response results hc hs hp

/-- Witness for C2: a concrete unknown-tool call turns into the error
payload ToolResult and the loop takes one more iteration. -/
theorem claim_C2_witness :
    processBlocks doubleUnknownTool none
      [Block.tool_use "toolu_1" "bogus_tool" []] =
      .ok [{ tool_use_id := "toolu_1",
             content := "\x7b\"error\": \"Unknown tool: bogus_tool\"\x7d" }] ∧
    orchLoop doubleUnknownTool none 1 [seedMessage "[]" "notes"] =
      orchLoop doubleUnknownTool none 0
        ([seedMessage "[]" "notes"] ++
          [{ role := "assistant",
             content := .blocks [Block.tool_use "toolu_1" "bogus_tool" []] },
           { role := "user",
             content := .toolResults
               [{ tool_use_id := "toolu_1",
                  content := "\x7b\"error\": \"Unknown tool: bogus_tool\"\x7d" }] }]) := by
  constructor
  · exact claim_C2_unknown_tool.1 doubleUnknownTool none "toolu_1" "bogus_tool"
      [] [] [] (by decide) (by decide) (by decide) rfl
  · exact claim_C2_unknown_tool.2 doubleUnknownTool none
      [seedMessage "[]" "notes"] 0
      { stop_reason := "tool_use",
        content := [Block.tool_use "toolu_1" "bogus_tool" []] }
      [{ tool_use_id := "toolu_1",
         content := "\x7b\"error\": \"Unknown tool: bogus_tool\"\x7d" }]
      rfl (by decide) (by decide)

/-- Claim C3: each sub-agent invoker fails whenever the underlying model
call errors (the error propagates and aborts, realizing the spec's
GenerationError) or returns empty content (the content[0] subscript
raises IndexError); none of them substitutes a default result. -/
theorem claim_C3_invoker_failures (client : ClientFn) (gf : Option String)
    (a b : String) (e : PyError) :
    (client (extractRequest a b) = .error e →
       _run_extract_facts client a b = .error e) ∧
    (∀ response, client (extractRequest a b) = .ok response →
       response.content = [] →
       _run_extract_facts client a b = .error .IndexError) ∧
    (client (summarizeRequest (_load_guidelines gf) a) = .error e →
       _run_summarize_facts client gf a = .error e) ∧
    (∀ response, client (summarizeRequest (_load_guidelines gf) a) = .ok response →
       response.content = [] →
       _run_summarize_facts client gf a = .error .IndexError) ∧
    (client (formatRequest a) = .error e →
       _run_format_updates client a = .error e) ∧
    (∀ response, client (formatRequest a) = .ok response →
       response.content = [] →
       _run_format_updates client a = .error .IndexError) := by
  refine ⟨?_, ?_, ?_, ?_, ?_, ?_⟩
  · intro h; simp [_run_extract_facts, h]
  · intro r hr hc; simp [_run_extract_facts, hr, firstBlockText, hc]
  · intro h; simp [_run_summarize_facts, h]
  · intro r hr hc; simp [_run_summarize_facts, hr, firstBlockText, hc]
  · intro h; simp [_run_format_updates, h]
  · intro r hr hc; simp [_run_format_updates, hr, firstBlockText, hc]

/-- Witness for C3: a failing client and an empty-content client make each
of the three invokers fail. -/
theorem claim_C3_witness :
    (_run_extract_facts doubleAPIError "m" "n" = .error .APIError ∧
     _run_summarize_facts doubleAPIError none "f" = .error .APIError ∧
     _run_format_updates doubleAPIError "s" = .error .APIError) ∧
    (_run_extract_facts doubleEmptyContent "m" "n" = .error .IndexError ∧
     _run_summarize_facts doubleEmptyContent none "f" = .error .IndexError ∧
     _run_format_updates doubleEmptyContent "s" = .error .IndexError) := by
  have h₁ := claim_C3_invoker_failures doubleAPIError none "m" "n" .APIError
  have h₂ := claim_C3_invoker_failures doubleAPIError none "f" "n" .APIError
  have h₃ := claim_C3_invoker_failures doubleAPIError none "s" "n" .APIError
  have h₄ := claim_C3_invoker_failures doubleEmptyContent none "m" "n" .APIError
  have h₅ := claim_C3_invoker_failures doubleEmptyContent none "f" "n" .APIError
  have h₆ := claim_C3_invoker_failures doubleEmptyContent none "s" "n" .APIError
  refine ⟨⟨h₁.1 rfl, h₂.2.2.1 rfl, h₃.2.2.2.2.1 rfl⟩,
          ⟨h₄.2.1 _ rfl rfl, h₅.2.2.2.1 _ rfl rfl, h₆.2.2.2.2.2 _ rfl rfl⟩⟩

/-- Counterexample for C4 as frozen: the extraction does throw exception
types other than the typed JSON-decode error, and not exactly when
parsing fails.  With a parser double that always succeeds with an
object, the fenced newline-free payload of three backticks raises
IndexError (before parsing); with one that succeeds with an array on
the unfenced payload "x", metadata attachment raises TypeError even
though parsing succeeded; and neither exception is the JSON-decode
error. -/
theorem claim_C4_counterexample :
    extractJiraResult parseEmptyObj [] "```" = .error .IndexError ∧
    extractJiraResult parseEmptyArr [] "x" = .error .TypeError ∧
    parseEmptyArr "x" = some (.arr []) ∧
    PyError.IndexError ≠ PyError.JSONDecodeError ∧
    PyError.TypeError ≠ PyError.JSONDecodeError :=
  ⟨rfl, rfl, rfl, by decide, by decide⟩

/-- Claim C4 as amended: given a terminal payload whose (optional)
code-fence stripping succeeds — any unfenced payload, which passes
through unchanged, or a fenced payload containing a newline — the
extraction fails with the typed JSON-decode error exactly when parsing
fails, on a successful parse of a JSON object it attaches the track
context's workstream and track metadata before returning, and on a
successful parse of a non-object it raises TypeError during metadata
attachment (while a fenced payload without a newline raises IndexError
before parsing, per the counterexample). -/
theorem claim_C4_result_extraction (parse : String → Option Json)
    (track_context : List (String × String)) (raw content : String)
    (hstrip : stripCodeFence (pyStrip raw) = .ok content) :
    (extractJiraResult parse track_context raw = .error .JSONDecodeError ↔
       parse content = none) ∧
    (∀ kvs, parse content = some (.obj kvs) →
       extractJiraResult parse track_context raw =
         .ok (.obj (Json.assign
           (Json.assign kvs "workstream" (.str (tcGet track_context "workstream")))
           "track" (.str (tcGet track_context "track"))))) ∧
    (∀ j, parse content = some j → j.isObj = false →
       extractJiraResult parse track_context raw = .error .TypeError) ∧
    (∀ s : String, pyStartsWith s "```" = false → stripCodeFence s = .ok s) := by
  have hext : extractJiraResult parse track_context raw =
      (match parse content with
       | none => .error .JSONDecodeError
       | some result =>
         match result.setItem "workstream" (.str (tcGet track_context "workstream")) with
         | .error e => .error e
         | .ok r₁ =>
           match r₁.setItem "track" (.str (tcGet track_context "track")) with
           | .error e => .error e
           | .ok r₂ => .ok r₂) := by
    simp only [extractJiraResult]
    rw [hstrip]
  refine ⟨?_, ?_, ?_, ?_⟩
  · rw [hext]
    cases hp : parse content with
    | none => simp
    | some j =>
      simp only [hp]
      cases j <;> simp [Json.setItem]
  · intro kvs hp
    rw [hext, hp]
    rfl
  · intro j hp hobj
    rw [hext, hp]
    cases j <;> try rfl
    simp [Json.isObj] at hobj
  · intro s hs
    simp [stripCodeFence, hs]

/-- Witness for C4: with a parser double that always fails the extraction
is exactly the JSON-decode error, and with one returning an object the
metadata fields are attached. -/
theorem claim_C4_witness :
    (extractJiraResult parseNone [("workstream", "W"), ("track", "T")] "x" =
       .error .JSONDecodeError ↔ parseNone "x" = none) ∧
    extractJiraResult parseEmptyObj [("workstream", "W"), ("track", "T")] "x" =
      .ok (.obj [("workstream", .str "W"), ("track", .str "T")]) := by
  have h₁ := claim_C4_result_extraction parseNone
    [("workstream", "W"), ("track", "T")] "x" "x" (by decide)
  have h₂ := claim_C4_result_extraction parseEmptyObj
    [("workstream", "W"), ("track", "T")] "x" "x" (by decide)
  exact ⟨h₁.1, h₂.2.1 [] rfl⟩

/-- Claim C5: the ToolResult batch of a turn echoes, in order, exactly the
call ids of the tool-use requests of the assistant turn: each result's
tool_use_id is the originating block's id and the batch order matches
the request order. -/
theorem claim_C5_call_id_echo (client : ClientFn) (gf : Option String)
    (blocks : List Block) (results : List ToolResult)
    (h : processBlocks client gf blocks = .ok results) :
    results.map ToolResult.tool_use_id = toolUseIds blocks :=
  processBlocks_ids client gf blocks results h

/-- Witness for C5: a three-block turn (one text block, two tool calls)
yields results tagged with the two call ids in request order. -/
theorem claim_C5_witness :
    [ToolResult.mk "call_A" (unknownToolPayload "alpha_tool"),
     ToolResult.mk "call_B" (unknownToolPayload "beta_tool")].map
        ToolResult.tool_use_id =
      toolUseIds [Block.text "thinking", Block.tool_use "call_A" "alpha_tool" [],
        Block.tool_use "call_B" "beta_tool" []] :=
  claim_C5_call_id_echo doubleAPIError none
    [Block.text "thinking", Block.tool_use "call_A" "alpha_tool" [],
     Block.tool_use "call_B" "beta_tool" []]
    [ToolResult.mk "call_A" (unknownToolPayload "alpha_tool"),
     ToolResult.mk "call_B" (unknownToolPayload "beta_tool")]
    (by decide)

/-- Claim C6: the guideline loader is total — when the guidelines file is
absent it returns the documented default policy string, when present it
returns the file text — summarize_facts behaves under an absent file
exactly as under a file holding the default policy (absence is
non-fatal), and the loaded text is injected verbatim into the
summarization system instruction. -/
theorem claim_C6_guideline_loader :
    _load_guidelines none =
      "No custom guidelines found. Use professional, concise language." ∧
    (∀ text : String, _load_guidelines (some text) = text) ∧
    (∀ (client : ClientFn) (facts : String),
       _run_summarize_facts client none facts =
         _run_summarize_facts client
           (some "No custom guidelines found. Use professional, concise language.")
           facts) ∧
    (∀ (text facts : String),
       (summarizeRequest (_load_guidelines (some text)) facts).system =
         "You are a summarization agent. Rewrite raw extracted facts into polished, executive-ready summaries. Follow the guidelines strictly.\n\nSUMMARIZATION GUIDELINES:\n" ++ text) := by
  exact ⟨rfl, fun _ => rfl, fun _ _ => rfl, fun _ _ => rfl⟩

/-- Claim C7: the formatting stage issues its model request at temperature
zero, and its output is a deterministic function of its input and of the
stubbed response to that single request: two runs on identical input
with agreeing doubles produce identical output. -/
theorem claim_C7_format_deterministic (c₁ c₂ : ClientFn) (s₁ s₂ : String) :
    (formatRequest s₁).temperature = 0 ∧
    (s₁ = s₂ → c₁ (formatRequest s₁) = c₂ (formatRequest s₂) →
      _run_format_updates c₁ s₁ = _run_format_updates c₂ s₂) := by
  constructor
  · norm_num [formatRequest]
  · intro hs hc
    subst hs
    simp only [_run_format_updates, hc]

/-- Witness for C7: two runs of the formatting stage on the same input
with the same fixed double agree. -/
theorem claim_C7_witness :
    _run_format_updates doubleFormatCall "S" =
      _run_format_updates doubleFormatCall "S" :=
  (claim_C7_format_deterministic doubleFormatCall doubleFormatCall "S" "S").2
    rfl rfl

/-- Claim C8: the orchestrator never structurally enforces the pipeline
ordering — each registered tool name has a handler looked up by name
alone, and at any point of any conversation (whatever was or was not
called before) a model-requested format_updates call is dispatched to
its handler and the loop continues with that handler's result. -/
theorem claim_C8_no_ordering_enforcement :
    (∀ (client : ClientFn) (gf : Option String) (name : String),
       name = "extract_facts" ∨ name = "summarize_facts" ∨
         name = "format_updates" →
       (_TOOL_HANDLERS client gf name).isSome = true) ∧
    (∀ (client : ClientFn) (gf : Option String) (msgs : List Message)
       (n : Nat) (id : String) (input : List (String × String)) (s r : String)
       (response : ModelResponse),
       client (orchRequest msgs) = .ok response →
       response.stop_reason ≠ "end_turn" →
       response.content = [Block.tool_use id "format_updates" input] →
       dictGet input "summarized_json" = .ok s →
       _run_format_updates client s = .ok r →
       orchLoop client gf (n + 1) msgs =
         orchLoop client gf n
           (msgs ++ [{ role := "assistant", content := .blocks response.content },
                     { role := "user",
                       content := .toolResults [{ tool_use_id := id, content := r }] }])) := by
  constructor
  · intro client gf name h
    rcases h with h | h | h <;> subst h <;> simp [_TOOL_HANDLERS]
  · intro client gf msgs n id input s r response hc hs hcontent hd hr
    have hpb : processBlocks client gf response.content =
        .ok [{ tool_use_id := id, content := r }] := by
      rw [hcontent, processBlocks]
      simp [_TOOL_HANDLERS, hd, hr, processBlocks]
    exact orchLoop_succ client gf n msgs response
      [{ tool_use_id := id, content := r }] hc hs hpb

/-- Witness for C8: a double whose very first assistant turn requests
format_updates (summarize_facts never called) has that call dispatched
and the loop continue with the handler's output. -/
theorem claim_C8_witness :
    orchLoop doubleFormatCall none 1 [seedMessage "m" "n"] =
      orchLoop doubleFormatCall none 0
        ([seedMessage "m" "n"] ++
          [{ role := "assistant",
             content := .blocks [Block.tool_use "toolu_9" "format_updates"
               [("summarized_json", "S")]] },
           { role := "user",
             content := .toolResults
               [{ tool_use_id := "toolu_9", content := "OUT" }] }]) :=
  claim_C8_no_ordering_enforcement.2 doubleFormatCall none
    [seedMessage "m" "n"] 0 "toolu_9" [("summarized_json", "S")] "S" "OUT"
    { stop_reason := "tool_use",
      content := [Block.tool_use "toolu_9" "format_updates"
        [("summarized_json", "S")]] }
    rfl (by decide) rfl rfl (by decide)

/-- Claim C9: notes_text is a declared required field of extract_facts,
yet when the model requests extract_facts with a payload lacking it the
handler's subscript raises KeyError and the whole orchestration run
aborts with that exception instead of an error-carrying ToolResult. -/
theorem claim_C9_missing_field_aborts :
    (∃ t, t ∈ TOOLS ∧ t.name = "extract_facts" ∧
       "notes_text" ∈ t.input_schema.required) ∧
    (∀ (client : ClientFn) (gf : Option String) (msgs : List Message)
       (n : Nat) (id : String) (input : List (String × String))
       (response : ModelResponse),
       client (orchRequest msgs) = .ok response →
       response.stop_reason ≠ "end_turn" →
       response.content = [Block.tool_use id "extract_facts" input] →
       (∃ m, input.lookup "milestones_json" = some m) →
       input.lookup "notes_text" = none →
       orchLoop client gf (n + 1) msgs = .error (.KeyError "notes_text")) ∧
    (∀ (client : ClientFn) (gf : Option String)
       (milestones_json notes_text id : String)
       (input : List (String × String)) (response : ModelResponse),
       client (orchRequest [seedMessage milestones_json notes_text]) =
         .ok response →
       response.stop_reason ≠ "end_turn" →
       response.content = [Block.tool_use id "extract_facts" input] →
       (∃ m, input.lookup "milestones_json" = some m) →
       input.lookup "notes_text" = none →
       run_orchestrator client gf milestones_json notes_text =
         .error (.KeyError "notes_text")) := by
  have habort : ∀ (client : ClientFn) (gf : Option String) (msgs : List Message)
      (n : Nat) (id : String) (input : List (String × String))
      (response : ModelResponse),
      client (orchRequest msgs) = .ok response →
      response.stop_reason ≠ "end_turn" →
      response.content = [Block.tool_use id "extract_facts" input] →
      (∃ m, input.lookup "milestones_json" = some m) →
      input.lookup "notes_text" = none →
      orchLoop client gf (n + 1) msgs = .error (.KeyError "notes_text") := by
    intro client gf msgs n id input response hc hs hcontent hm hn
    obtain ⟨m, hm⟩ := hm
    rw [orchLoop, hc]
    simp only [hs, if_false]
    rw [hcontent, processBlocks]
    simp [_TOOL_HANDLERS, dictGet, hm, hn]
  refine ⟨by decide, habort, ?_⟩
  intro client gf milestones_json notes_text id input response hc hs hcontent hm hn
  exact habort client gf [seedMessage milestones_json notes_text] 9 id input
    response hc hs hcontent hm hn

/-- Witness for C9: a double requesting extract_facts without notes_text
makes the whole run abort with KeyError. -/
theorem claim_C9_witness :
    run_orchestrator doubleMissingField none "m" "n" =
      .error (.KeyError "notes_text") :=
  claim_C9_missing_field_aborts.2.2 doubleMissingField none "m" "n" "toolu_2"
    [("milestones_json", "[]")]
    { stop_reason := "tool_use",
      content := [Block.tool_use "toolu_2" "extract_facts"
        [("milestones_json", "[]")]] }
    rfl (by decide) rfl ⟨"[]", rfl⟩ rfl

/-- Claim C10: the code-fence stripping is partial — a terminal payload
that starts with a fence but holds no newline (the string of three
backticks alone) makes the split-on-first-newline subscript raise
IndexError before any JSON parsing is attempted (the result holds for
every parser double). -/
theorem claim_C10_fence_strip_incomplete (parse : String → Option Json)
    (track_context : List (String × String)) :
    pyStartsWith "```" "```" = true ∧
    afterNewline "```".data = none ∧
    extractJiraResult parse track_context "```" = .error .IndexError :=
  ⟨rfl, rfl, rfl⟩

end TrackerAgent
